import Mathlib

/-!
Verification of the TodoFormModal component (TODO-UI repository).

The component owns a transient form state for creating or editing a todo
item.  We embed its data model (`Todo`, `TodoFormState`, the `Partial<Todo>`
output record), its seeding effect, its change handler, its submit handler
and its dismissal paths as pure Lean functions over an explicit controller
state, and prove the specified properties about them.
-/

namespace TodoUI

/-- The `Priority` union type: `'low' | 'medium' | 'high'`. -/
inductive Priority where
  | low
  | medium
  | high
  deriving DecidableEq, Repr

/-- The `Status` union type: `'pending' | 'in-progress' | 'completed'`. -/
inductive Status where
  | pending
  | inProgress
  | completed
  deriving DecidableEq, Repr

/-- The `Todo` interface: a full todo entity as owned by the parent. -/
structure Todo where
  id : String
  title : String
  description : String
  completed : Bool
  dueDate : String
  priority : Priority
  status : Status
  createdAt : String
  updatedAt : String
  deriving DecidableEq, Repr

/-- The `TodoFormState` interface: the subset of fields edited in the form. -/
structure TodoFormState where
  title : String
  description : String
  dueDate : String
  priority : Priority
  status : Status
  deriving DecidableEq, Repr

/-- The `Partial<Todo>` record passed to `onSave`: every `Todo` field is
optional; a field that the submit handler does not set is absent (`none`). -/
structure PartialTodo where
  id : Option String := none
  title : Option String := none
  description : Option String := none
  completed : Option Bool := none
  dueDate : Option String := none
  priority : Option Priority := none
  status : Option Status := none
  createdAt : Option String := none
  updatedAt : Option String := none
  deriving DecidableEq, Repr

/-- `defaultFormState`: empty title, description and due date, priority
medium, status pending. -/
def defaultFormState : TodoFormState :=
  { title := ""
    description := ""
    dueDate := ""
    priority := Priority.medium
    status := Status.pending }

/-- JavaScript `String.prototype.trim`: strips leading and trailing
whitespace (the JavaScript WhiteSpace and LineTerminator characters; the
ordinary ones are covered by `Char.isWhitespace`). -/
def jsTrim (s : String) : String :=
  String.mk (((s.data.dropWhile Char.isWhitespace).reverse.dropWhile Char.isWhitespace).reverse)

/-- The part of a string before its first `T` character, the whole string if
it has none.  This models the JavaScript expression
`new Date(s).toISOString().split('T')[0]` for the UTC-anchored ISO-8601
strings the data model stores in `dueDate`: a bare `YYYY-MM-DD` date (parsed
by `new Date` as UTC midnight) or a `Z`-suffixed UTC timestamp.  For both,
the UTC calendar date printed by `toISOString` is exactly the portion of the
input before its first `T`. -/
def calendarDatePart (s : String) : String :=
  String.mk (s.data.takeWhile (fun c => c != 'T'))

/-- The due-date seeding expression of the pre-populate effect:
`editingTodo.dueDate ? new Date(editingTodo.dueDate).toISOString().split('T')[0] : ''`.
An empty string is falsy in JavaScript, so an empty due date skips the
date-parsing branch entirely. -/
def formatDueDateForInput (dueDate : String) : String :=
  if dueDate = "" then "" else calendarDatePart dueDate

/-- The body of the seeding `useEffect`: when the modal is open with an
`editingTodo`, the form is pre-populated from it (title, description,
priority and status verbatim, due date reformatted for the date input);
without one, the form resets to `defaultFormState`. -/
def seedFormState : Option Todo → TodoFormState
  | some editingTodo =>
      { title := editingTodo.title
        description := editingTodo.description
        dueDate := formatDueDateForInput editingTodo.dueDate
        priority := editingTodo.priority
        status := editingTodo.status }
  | none => defaultFormState

/-- One change event, named by the `name` attribute of the input that fired
it.  The two `select` inputs only offer the enumerated option values, so the
priority and status updates carry values of the corresponding union types. -/
inductive FieldUpdate where
  | title (v : String)
  | description (v : String)
  | dueDate (v : String)
  | priority (v : Priority)
  | status (v : Status)
  deriving DecidableEq, Repr

/-- The `handleChange` update `prev => ({ ...prev, [name]: value })`: the
field named by the event is replaced, every other field is spread through
unchanged. -/
def setFormField (fs : TodoFormState) : FieldUpdate → TodoFormState
  | FieldUpdate.title v => { fs with title := v }
  | FieldUpdate.description v => { fs with description := v }
  | FieldUpdate.dueDate v => { fs with dueDate := v }
  | FieldUpdate.priority v => { fs with priority := v }
  | FieldUpdate.status v => { fs with status := v }

/-- The `todoToSave` record built by `handleSubmit` on successful
validation: all form fields are spread in, `completed` is derived from
`status`, and `id` is spread in from `editingTodo` only when editing
(`...(editingTodo && { id: editingTodo.id })`).  `createdAt` and `updatedAt`
are never set. -/
def todoToSave (formData : TodoFormState) (editingTodo : Option Todo) : PartialTodo :=
  { title := some formData.title
    description := some formData.description
    dueDate := some formData.dueDate
    priority := some formData.priority
    status := some formData.status
    completed := some (decide (formData.status = Status.completed))
    id := editingTodo.map (fun e => e.id)
    createdAt := none
    updatedAt := none }

/-- The controller state: the `isOpen` and `editingTodo` props together with
the `formData` state hook. -/
structure ControllerState where
  isOpen : Bool
  editingTodo : Option Todo
  formData : TodoFormState
  deriving DecidableEq, Repr

/-- Externally observable callback invocations. -/
inductive Event where
  | save (record : PartialTodo)
  | close
  deriving DecidableEq, Repr

/-- Opening the modal: the parent renders it with `isOpen = true` and an
optional `editingTodo`; the seeding effect (dependencies `isOpen` and
`editingTodo`) fires and overwrites `formData`.  The deferred focus on the
title input is a presentation effect with no state content. -/
def openModal (editingTodo : Option Todo) (_s : ControllerState) : ControllerState :=
  { isOpen := true
    editingTodo := editingTodo
    formData := seedFormState editingTodo }

/-- A change event on one of the rendered inputs: `handleChange` applied to
the controller state. -/
def handleChange (u : FieldUpdate) (s : ControllerState) : ControllerState :=
  { s with formData := setFormField s.formData u }

/-- The `handleSubmit` handler.  If the trimmed title is empty it alerts and
refocuses the title input — both pure presentation — and returns, invoking
nothing and changing nothing.  Otherwise it builds `todoToSave`, invokes
`onSave` with it, then invokes `onClose` (the parent clears `isOpen`). -/
def handleSubmit (s : ControllerState) : ControllerState × List Event :=
  if jsTrim s.formData.title = "" then
    (s, [])
  else
    ({ s with isOpen := false },
     [Event.save (todoToSave s.formData s.editingTodo), Event.close])

/-- A dismissal trigger: the close button, the cancel button, a click on the
overlay outside the form content, or the Escape key.  All four invoke
`onClose` and nothing else, so `formData` is untouched and no save happens.
They exist only while the modal is rendered (`if (!isOpen) return null`, and
the keydown listener is removed when closed), so a dismissal when the
controller is already closed does nothing at all. -/
def requestClose (s : ControllerState) : ControllerState × List Event :=
  if s.isOpen then ({ s with isOpen := false }, [Event.close]) else (s, [])

/-- Two due-date strings denote the same calendar date when their portions
before the first `T` agree. -/
def sameCalendarDate (a b : String) : Prop :=
  calendarDatePart a = calendarDatePart b

end TodoUI

namespace TodoUI

/-- Taking the prefix satisfying a predicate is idempotent. -/
theorem takeWhile_idem (p : Char → Bool) (l : List Char) :
    (l.takeWhile p).takeWhile p = l.takeWhile p := by
  induction l with
  | nil => rfl
  | cons a l ih =>
    by_cases h : p a = true
    · simp [List.takeWhile_cons, h, ih]
    · simp [List.takeWhile_cons, h]

/-- Extracting the calendar-date part of a due-date string is idempotent. -/
theorem calendarDatePart_idem (s : String) :
    calendarDatePart (calendarDatePart s) = calendarDatePart s := by
  unfold calendarDatePart
  exact congrArg String.mk (takeWhile_idem _ s.data)

/-- The reformatted due date denotes the same calendar date as the
original. -/
theorem sameCalendarDate_formatDueDateForInput (s : String) :
    sameCalendarDate (formatDueDateForInput s) s := by
  unfold sameCalendarDate formatDueDateForInput
  by_cases h : s = ""
  · simp [h]
  · simp [h, calendarDatePart_idem]

/-- The entity of the editing scenario in the specification:
`{id: t1, title: X, dueDate: 2024-03-05T10:00:00Z, priority: high, status: pending}`. -/
def sampleTodo : Todo :=
  { id := "t1"
    title := "X"
    description := "desc"
    completed := false
    dueDate := "2024-03-05T10:00:00Z"
    priority := Priority.high
    status := Status.pending
    createdAt := "2024-01-01"
    updatedAt := "2024-01-02" }

/-- A controller that has never been opened. -/
def closedState : ControllerState :=
  { isOpen := false
    editingTodo := none
    formData := defaultFormState }

/-- C1: opening an entity and submitting immediately emits a save record
whose title, description, due date (as a calendar date), priority and status
equal the entity's, whose completed flag derives from its status, and whose
id is the entity's id. -/
theorem open_then_submit (s : ControllerState) (E : Todo)
    (hTitle : jsTrim E.title ≠ "") :
    ∃ rec : PartialTodo,
      (handleSubmit (openModal (some E) s)).2 = [Event.save rec, Event.close] ∧
      rec.title = some E.title ∧
      rec.description = some E.description ∧
      (∃ d, rec.dueDate = some d ∧ sameCalendarDate d E.dueDate) ∧
      rec.priority = some E.priority ∧
      rec.status = some E.status ∧
      rec.completed = some (decide (E.status = Status.completed)) ∧
      rec.id = some E.id := by
  refine ⟨todoToSave (seedFormState (some E)) (some E), ?_⟩
  simp only [handleSubmit, openModal, seedFormState, hTitle, if_neg]
  refine ⟨?_, rfl, rfl, ⟨formatDueDateForInput E.dueDate, rfl,
    sameCalendarDate_formatDueDateForInput E.dueDate⟩, rfl, rfl, rfl, rfl⟩
  simp [hTitle]

/-- Witness for C1 at the scenario entity, starting from a closed controller. -/
theorem open_then_submit_witness :
    jsTrim sampleTodo.title ≠ "" ∧
    ∃ rec : PartialTodo,
      (handleSubmit (openModal (some sampleTodo) closedState)).2 =
        [Event.save rec, Event.close] ∧
      rec.title = some sampleTodo.title ∧
      rec.description = some sampleTodo.description ∧
      (∃ d, rec.dueDate = some d ∧ sameCalendarDate d sampleTodo.dueDate) ∧
      rec.priority = some sampleTodo.priority ∧
      rec.status = some sampleTodo.status ∧
      rec.completed = some (decide (sampleTodo.status = Status.completed)) ∧
      rec.id = some sampleTodo.id :=
  ⟨by decide, open_then_submit closedState sampleTodo (by decide)⟩

/-- An open creation form whose title input holds only whitespace. -/
def openWhitespaceState : ControllerState :=
  { isOpen := true
    editingTodo := none
    formData := { defaultFormState with title := "   " } }

/-- An open creation form whose title is a letter padded with whitespace. -/
def paddedTitleState : ControllerState :=
  { isOpen := true
    editingTodo := none
    formData := { defaultFormState with title := "  x  " } }

/-- C2: submitting with a whitespace-only title fails locally: no save, no
close, the controller stays open and the form state is wholly unchanged. -/
theorem submit_invalid_title (s : ControllerState)
    (hOpen : s.isOpen = true) (hTitle : jsTrim s.formData.title = "") :
    handleSubmit s = (s, []) ∧
    (handleSubmit s).1.isOpen = true ∧
    (handleSubmit s).1.formData = s.formData := by
  simp [handleSubmit, hTitle, hOpen]

/-- Witness for C2 on a concrete open form with title three spaces. -/
theorem submit_invalid_title_witness :
    openWhitespaceState.isOpen = true ∧
    jsTrim openWhitespaceState.formData.title = "" ∧
    handleSubmit openWhitespaceState = (openWhitespaceState, []) ∧
    (handleSubmit openWhitespaceState).1.isOpen = true ∧
    (handleSubmit openWhitespaceState).1.formData = openWhitespaceState.formData :=
  ⟨by decide, by decide,
   submit_invalid_title openWhitespaceState (by decide) (by decide)⟩

/-- C3: a successful submit carries an id exactly when editing (then it is
the edited entity's id, and absent for creation), and never carries
createdAt or updatedAt. -/
theorem submit_id_iff_edit (s : ControllerState)
    (hTitle : jsTrim s.formData.title ≠ "") :
    ∃ rec : PartialTodo,
      (handleSubmit s).2 = [Event.save rec, Event.close] ∧
      (rec.id.isSome ↔ s.editingTodo.isSome) ∧
      (∀ e, s.editingTodo = some e → rec.id = some e.id) ∧
      (s.editingTodo = none → rec.id = none) ∧
      rec.createdAt = none ∧
      rec.updatedAt = none := by
  refine ⟨todoToSave s.formData s.editingTodo, by simp [handleSubmit, hTitle], ?_, ?_, ?_, rfl, rfl⟩
  · cases s.editingTodo <;> simp [todoToSave]
  · intro e he
    simp [todoToSave, he]
  · intro he
    simp [todoToSave, he]

/-- Witness for C3, applied in edit mode and in create mode. -/
theorem submit_id_iff_edit_witness :
    (jsTrim (openModal (some sampleTodo) closedState).formData.title ≠ "" ∧
     ∃ rec : PartialTodo,
       (handleSubmit (openModal (some sampleTodo) closedState)).2 =
         [Event.save rec, Event.close] ∧
       (rec.id.isSome ↔ (openModal (some sampleTodo) closedState).editingTodo.isSome) ∧
       (∀ e, (openModal (some sampleTodo) closedState).editingTodo = some e →
         rec.id = some e.id) ∧
       ((openModal (some sampleTodo) closedState).editingTodo = none → rec.id = none) ∧
       rec.createdAt = none ∧
       rec.updatedAt = none) ∧
    (jsTrim paddedTitleState.formData.title ≠ "" ∧
     ∃ rec : PartialTodo,
       (handleSubmit paddedTitleState).2 = [Event.save rec, Event.close] ∧
       (rec.id.isSome ↔ paddedTitleState.editingTodo.isSome) ∧
       (∀ e, paddedTitleState.editingTodo = some e → rec.id = some e.id) ∧
       (paddedTitleState.editingTodo = none → rec.id = none) ∧
       rec.createdAt = none ∧
       rec.updatedAt = none) :=
  ⟨⟨by decide, submit_id_iff_edit (openModal (some sampleTodo) closedState) (by decide)⟩,
   ⟨by decide, submit_id_iff_edit paddedTitleState (by decide)⟩⟩

/-- C4: the creation scenario seeds the defaults, sets the title and the
status, and submitting emits exactly one save with the expected record
(no id) followed by the close, leaving the controller closed. -/
theorem create_scenario (s : ControllerState) :
    (handleSubmit (handleChange (FieldUpdate.status Status.completed)
        (handleChange (FieldUpdate.title "Buy milk") (openModal none s)))).2 =
      [Event.save
        { id := none
          title := some "Buy milk"
          description := some ""
          completed := some true
          dueDate := some ""
          priority := some Priority.medium
          status := some Status.completed
          createdAt := none
          updatedAt := none },
       Event.close] ∧
    (handleSubmit (handleChange (FieldUpdate.status Status.completed)
        (handleChange (FieldUpdate.title "Buy milk") (openModal none s)))).1.isOpen = false := by
  exact ⟨rfl, rfl⟩

/-- Taking the prefix of characters other than `T` from a string that
starts with a `T`-free block and continues, if at all, with a `T`, returns
exactly that block. -/
theorem takeWhile_neT_append (d rest : List Char) (hd : 'T' ∉ d)
    (hrest : rest = [] ∨ ∃ r, rest = 'T' :: r) :
    (d ++ rest).takeWhile (fun c => c != 'T') = d := by
  induction d with
  | nil =>
    rcases hrest with h | ⟨r, h⟩ <;> simp [h, List.takeWhile_cons]
  | cons a d ih =>
    have ha : a ≠ 'T' := fun h => hd (h ▸ List.mem_cons_self a d)
    have hd2 : 'T' ∉ d := fun h => hd (List.mem_cons_of_mem a h)
    simp [List.takeWhile_cons, ha, ih hd2]

/-- A string whose character list is nonempty is not the empty string. -/
theorem string_ne_empty_of_data_ne_nil (s : String) (h : s.data ≠ []) : s ≠ "" := by
  intro hc
  exact h (congrArg String.data hc)

/-- C5: seeding from an entity whose due date is a calendar date optionally
followed by a `T`-introduced time and zone component keeps exactly the
calendar date and copies priority and status verbatim; in particular the
scenario entity with due date `2024-03-05T10:00:00Z` seeds `2024-03-05`. -/
theorem seed_strips_time_component :
    (∀ (e : Todo) (d rest : String),
        e.dueDate = d ++ rest →
        d ≠ "" →
        'T' ∉ d.data →
        (rest = "" ∨ ∃ r : List Char, rest = String.mk ('T' :: r)) →
        (seedFormState (some e)).dueDate = d ∧
        (seedFormState (some e)).priority = e.priority ∧
        (seedFormState (some e)).status = e.status) ∧
    (seedFormState (some sampleTodo)).dueDate = "2024-03-05" ∧
    (seedFormState (some sampleTodo)).priority = Priority.high ∧
    (seedFormState (some sampleTodo)).status = Status.pending := by
  refine ⟨?_, by decide, by decide, by decide⟩
  intro e d rest he hd hT hrest
  refine ⟨?_, rfl, rfl⟩
  have hdata : d.data ≠ [] := fun h => hd (congrArg String.mk h)
  have hne : e.dueDate ≠ "" := by
    rw [he]
    apply string_ne_empty_of_data_ne_nil
    rw [String.data_append]
    simp [hdata]
  have hside : rest.data = [] ∨ ∃ r, rest.data = 'T' :: r := by
    rcases hrest with h | ⟨r, h⟩
    · left
      rw [h]
    · right
      exact ⟨r, by rw [h]⟩
  show formatDueDateForInput e.dueDate = d
  rw [formatDueDateForInput, if_neg hne, he, calendarDatePart]
  rw [String.data_append]
  rw [takeWhile_neT_append d.data rest.data hT hside]

/-- Witness for C5 at the scenario entity, split as the calendar date
`2024-03-05` followed by the time component `T10:00:00Z`. -/
theorem seed_strips_time_component_witness :
    sampleTodo.dueDate = "2024-03-05" ++ "T10:00:00Z" ∧
    "2024-03-05" ≠ "" ∧
    'T' ∉ "2024-03-05".data ∧
    (seedFormState (some sampleTodo)).dueDate = "2024-03-05" ∧
    (seedFormState (some sampleTodo)).priority = sampleTodo.priority ∧
    (seedFormState (some sampleTodo)).status = sampleTodo.status :=
  ⟨by decide, by decide, by decide,
   seed_strips_time_component.1 sampleTodo "2024-03-05" "T10:00:00Z"
     (by decide) (by decide) (by decide)
     (Or.inr ⟨"10:00:00Z".data, rfl⟩)⟩

/-- C6: each field update replaces exactly its own field with the given
value and leaves the other four form fields untouched, with no derived
field computed. -/
theorem setField_frame (fs : TodoFormState) (v : String) (p : Priority) (st : Status) :
    ((setFormField fs (FieldUpdate.title v)).title = v ∧
     (setFormField fs (FieldUpdate.title v)).description = fs.description ∧
     (setFormField fs (FieldUpdate.title v)).dueDate = fs.dueDate ∧
     (setFormField fs (FieldUpdate.title v)).priority = fs.priority ∧
     (setFormField fs (FieldUpdate.title v)).status = fs.status) ∧
    ((setFormField fs (FieldUpdate.description v)).description = v ∧
     (setFormField fs (FieldUpdate.description v)).title = fs.title ∧
     (setFormField fs (FieldUpdate.description v)).dueDate = fs.dueDate ∧
     (setFormField fs (FieldUpdate.description v)).priority = fs.priority ∧
     (setFormField fs (FieldUpdate.description v)).status = fs.status) ∧
    ((setFormField fs (FieldUpdate.dueDate v)).dueDate = v ∧
     (setFormField fs (FieldUpdate.dueDate v)).title = fs.title ∧
     (setFormField fs (FieldUpdate.dueDate v)).description = fs.description ∧
     (setFormField fs (FieldUpdate.dueDate v)).priority = fs.priority ∧
     (setFormField fs (FieldUpdate.dueDate v)).status = fs.status) ∧
    ((setFormField fs (FieldUpdate.priority p)).priority = p ∧
     (setFormField fs (FieldUpdate.priority p)).title = fs.title ∧
     (setFormField fs (FieldUpdate.priority p)).description = fs.description ∧
     (setFormField fs (FieldUpdate.priority p)).dueDate = fs.dueDate ∧
     (setFormField fs (FieldUpdate.priority p)).status = fs.status) ∧
    ((setFormField fs (FieldUpdate.status st)).status = st ∧
     (setFormField fs (FieldUpdate.status st)).title = fs.title ∧
     (setFormField fs (FieldUpdate.status st)).description = fs.description ∧
     (setFormField fs (FieldUpdate.status st)).dueDate = fs.dueDate ∧
     (setFormField fs (FieldUpdate.status st)).priority = fs.priority) := by
  exact ⟨⟨rfl, rfl, rfl, rfl, rfl⟩, ⟨rfl, rfl, rfl, rfl, rfl⟩, ⟨rfl, rfl, rfl, rfl, rfl⟩,
    ⟨rfl, rfl, rfl, rfl, rfl⟩, ⟨rfl, rfl, rfl, rfl, rfl⟩⟩

/-- C7: opening an entity, editing arbitrarily, cancelling and opening the
same entity again seeds the identical form state both times. -/
theorem reopen_reseeds (s : ControllerState) (E : Todo) (edits : List FieldUpdate) :
    (openModal (some E)
        ((requestClose
          (edits.foldl (fun st u => handleChange u st) (openModal (some E) s))).1)).formData =
      (openModal (some E) s).formData := rfl

/-- C8: every dismissal path closes the controller without saving or
touching the form state, and a second dismissal when already closed is a
no-op with no save on either call. -/
theorem close_paths_never_save (s : ControllerState) :
    (∀ rec, Event.save rec ∉ (requestClose s).2) ∧
    (requestClose s).1.formData = s.formData ∧
    (requestClose s).1.isOpen = false ∧
    requestClose (requestClose s).1 = ((requestClose s).1, []) := by
  by_cases h : s.isOpen <;> simp [requestClose, h]

/-- C9: a title that is nonempty after trimming passes validation and is
emitted exactly as stored, untrimmed. -/
theorem submit_preserves_raw_title (s : ControllerState)
    (hTitle : jsTrim s.formData.title ≠ "") :
    ∃ rec : PartialTodo,
      (handleSubmit s).2 = [Event.save rec, Event.close] ∧
      rec.title = some s.formData.title :=
  ⟨todoToSave s.formData s.editingTodo, by simp [handleSubmit, hTitle], rfl⟩

/-- Witness for C9: the title two spaces, x, two spaces passes validation
and is saved with its whitespace intact. -/
theorem submit_preserves_raw_title_witness :
    jsTrim paddedTitleState.formData.title ≠ "" ∧
    ∃ rec : PartialTodo,
      (handleSubmit paddedTitleState).2 = [Event.save rec, Event.close] ∧
      rec.title = some "  x  " :=
  ⟨by decide, submit_preserves_raw_title paddedTitleState (by decide)⟩

/-- An entity with no due date set. -/
def noDueDateTodo : Todo :=
  { sampleTodo with id := "t2", dueDate := "" }

/-- C10: seeding from an entity whose due date is empty skips the
date-reformatting branch and leaves the due-date field empty. -/
theorem seed_empty_dueDate (e : Todo) (h : e.dueDate = "") :
    (seedFormState (some e)).dueDate = "" := by
  simp [seedFormState, formatDueDateForInput, h]

/-- Witness for C10 on a concrete entity with empty due date. -/
theorem seed_empty_dueDate_witness :
    noDueDateTodo.dueDate = "" ∧ (seedFormState (some noDueDateTodo)).dueDate = "" :=
  ⟨rfl, seed_empty_dueDate noDueDateTodo rfl⟩

end TodoUI
